import Mathlib

/-!
Shallow embedding of `src/server.js` (a minimal Stripe-style payment backend):
the amount/currency validator, the `POST /create-payment-intent` handler, the
`POST /webhook` handler, and the CORS origin gate. JavaScript runtime values
that flow through the handlers are modelled by the inductive `JValue`; the
external processor client (`stripe.paymentIntents.create`,
`stripe.webhooks.constructEvent`) and `JSON.parse` are parameters of the
handler functions, since they are library calls, not code of this repository.
-/

/-- Model of a JavaScript runtime value as it can appear in a JSON request
body or a parsed webhook event. Finite numbers are rationals (every integer
that the validator's range admits is exactly representable in an IEEE double,
so rationals are faithful for the properties at stake); `nan`, `inf`, `ninf`
model the non-finite doubles; `undefV` models `undefined`. Objects are
association lists of own enumerable properties in insertion order. -/
inductive JValue : Type where
  | num (q : ℚ)
  | nan
  | inf
  | ninf
  | str (s : String)
  | bool (b : Bool)
  | nullV
  | undefV
  | obj (fields : List (String × JValue))
  | arr (elems : List JValue)

/-- `Number.isInteger(v)`: true iff `v` is a finite number with no fractional
part. On the rational model a finite number is an integer iff its reduced
denominator is 1. -/
def numberIsInteger : JValue → Bool
  | .num q => q.den == 1
  | _ => false

/-- `function isValidAmount(v) { return Number.isInteger(v) && v > 0 && v <= 5_000_00_00; }`
(src/server.js line 23-25). The numeric literal `5_000_00_00` has digits
`50000000`, i.e. fifty million. The `&&` short-circuits, so the comparisons
only ever see a finite integral number. -/
def isValidAmount : JValue → Bool
  | .num q => q.den == 1 && decide (0 < q) && decide (q ≤ 50000000)
  | _ => false

/-- `const allowedCurrencies = new Set(['usd', 'cad', 'eur', 'gbp', 'aud']);`
(src/server.js line 26). -/
def allowedCurrencies : List String := ["usd", "cad", "eur", "gbp", "aud"]

mutual

/-- Model of the JavaScript `String(v)` coercion. Exact for the cases the
handlers exercise: strings are returned unchanged, booleans, `null` and
`undefined` print their keywords, integral numbers print their decimal
digits, plain objects print `[object Object]`, arrays join their elements
with commas (with `null`/`undefined` elements rendered empty, as
`Array.prototype.toString` does). Non-integral numbers are rendered as
`num/den`; JavaScript would use decimal or scientific notation, but no
property below depends on the rendering of a non-integral number. -/
def jsToString : JValue → String
  | .num q => if q.den == 1 then toString q.num else toString q.num ++ "/" ++ toString q.den
  | .nan => "NaN"
  | .inf => "Infinity"
  | .ninf => "-Infinity"
  | .str s => s
  | .bool true => "true"
  | .bool false => "false"
  | .nullV => "null"
  | .undefV => "undefined"
  | .obj _ => "[object Object]"
  | .arr l => jsArrayJoin l

/-- Comma-join of array elements for `String(array)`. -/
def jsArrayJoin : List JValue → String
  | [] => ""
  | [v] => jsArrayElem v
  | v :: rest => jsArrayElem v ++ "," ++ jsArrayJoin rest

/-- One array element under `Array.prototype.toString`: `null` and
`undefined` render as the empty string, everything else via `String(v)`. -/
def jsArrayElem : JValue → String
  | .nullV => ""
  | .undefV => ""
  | v => jsToString v

end

/-- Model of JavaScript `s.toLowerCase()`: lower-case every character.
`Char.toLower` agrees with JavaScript on ASCII, which is all the currency
allow-set contains. -/
def jsToLowerCase (s : String) : String := String.mk (s.data.map Char.toLower)

/-- The currency test the payment-intent handler performs inline:
`allowedCurrencies.has(String(currency).toLowerCase())` (src/server.js
line 37). -/
def isValidCurrencyCheck (currency : JValue) : Bool :=
  allowedCurrencies.contains (jsToLowerCase (jsToString currency))

example : isValidAmount (.num 2500) = true := by decide
example : isValidAmount (.num 50000000) = true := by decide
example : isValidAmount (.num 50000001) = false := by decide
example : isValidAmount (.num 500000000) = false := by decide
example : isValidAmount (.num (-5)) = false := by decide
example : isValidAmount (.num (mkRat 1 2)) = false := by decide
example : isValidAmount (.str "10") = false := by decide
example : isValidCurrencyCheck (.str "USD") = true := by simp [isValidCurrencyCheck, jsToString]; decide
example : isValidCurrencyCheck (.str "jpy") = false := by simp [isValidCurrencyCheck, jsToString]; decide
example : jsToString (.num (-5)) = "-5" := by simp [jsToString]; rfl

/-! The `POST /create-payment-intent` handler (src/server.js lines 30-55). -/

/-- The destructured request body
`const { amountInCents, currency = 'usd', metadata = {} } = req.body`.
`amountInCents` is an arbitrary runtime value. `currency = none` models a
body whose `currency` property is absent or `undefined` (the destructuring
default applies exactly then); likewise for `metadata`, restricted to the
mapping shape the endpoint's contract admits (an object, modelled as an
association list of properties). -/
structure CreateReq where
  amountInCents : JValue
  currency : Option JValue
  metadata : Option (List (String × JValue))

/-- The argument object passed to `stripe.paymentIntents.create`
(src/server.js lines 41-48), field for field. -/
structure PIParams where
  amount : JValue
  currency : String
  automatic_payment_methods_enabled : Bool
  metadata : List (String × String)

/-- The payment intent returned by a successful processor call; the handler
only reads `client_secret`. -/
structure Intent where
  client_secret : String

/-- A response body, one constructor per body shape the server produces. -/
inductive Body where
  | errJson (msg : String)
  | clientSecretJson (secret : String)
  | receivedJson
  | text (s : String)

/-- An HTTP response: status code and body. Express's `res.json(x)` without
an explicit status sends 200. -/
structure Resp where
  status : Nat
  body : Body

/-- What one run of the payment-intent handler did: the response sent, the
list of processor invocations made (in order), and the `console.error` line
emitted by the `catch` block, if any. -/
structure CreateResult where
  resp : Resp
  calls : List PIParams
  errorLog : Option String

/-- `Object.entries(metadata || {}).map(([k, v]) => [k, String(v)])`
(src/server.js lines 45-47): coerce every metadata value to a string,
keeping keys and order. -/
def stringCoerceEntries (l : List (String × JValue)) : List (String × String) :=
  l.map fun kv => (kv.1, jsToString kv.2)

/-- The `POST /create-payment-intent` handler (src/server.js lines 30-55).
The external `stripe.paymentIntents.create` call is the parameter `create`;
`Except.error e` models the promise rejecting with an error whose string
form is `e`, which the `catch` block turns into a 500. Validation failures
return before any processor call. -/
def createPaymentIntentHandler (create : PIParams → Except String Intent)
    (req : CreateReq) : CreateResult :=
  if !isValidAmount req.amountInCents then
    ⟨⟨400, .errJson "Invalid amount"⟩, [], none⟩
  else
    let currency := req.currency.getD (.str "usd")
    if !isValidCurrencyCheck currency then
      ⟨⟨400, .errJson "Unsupported currency"⟩, [], none⟩
    else
      let params : PIParams :=
        ⟨req.amountInCents, jsToLowerCase (jsToString currency), true,
          stringCoerceEntries (req.metadata.getD [])⟩
      match create params with
      | .ok intent => ⟨⟨200, .clientSecretJson intent.client_secret⟩, [params], none⟩
      | .error e =>
          ⟨⟨500, .errJson "Server error"⟩, [params],
            some ("create-payment-intent error: " ++ e)⟩

/-! The `POST /webhook` handler (src/server.js lines 59-89). -/

/-- JavaScript property read `v[key]` as the webhook handler performs it:
reading a property of `null` or `undefined` throws a `TypeError`
(modelled as `Except.error`); on an object it yields the property's value,
or `undefined` when absent; on any other value (string, number, boolean,
array) the properties this handler reads do not exist, so it yields
`undefined`. -/
def jsProp : JValue → String → Except String JValue
  | .nullV, k => .error ("TypeError: Cannot read properties of null (reading " ++ k ++ ")")
  | .undefV, k => .error ("TypeError: Cannot read properties of undefined (reading " ++ k ++ ")")
  | .obj fields, k => .ok ((fields.lookup k).getD .undefV)
  | _, _ => .ok .undefV

/-- Strict equality of a runtime value with a string literal, as the
`switch (event.type)` cases test it. -/
def strictEqStr (v : JValue) (s : String) : Bool :=
  match v with
  | .str t => t == s
  | _ => false

/-- Which `switch` branch the webhook dispatch took. -/
inductive WDispatch where
  | succeeded
  | failed
  | other
deriving DecidableEq

/-- The `switch (event.type)` dispatch (src/server.js lines 73-86). Both
handled branches evaluate `event.data.object`; the `payment_failed` branch
additionally evaluates `pi.last_payment_error?.message` for its warning log
(the read of `last_payment_error` throws when `pi` is `null`/`undefined`;
the optional chain after it cannot throw). A thrown `TypeError` is
`Except.error`. -/
def webhookDispatch (ev : JValue) : Except String WDispatch := do
  let t ← jsProp ev "type"
  if strictEqStr t "payment_intent.succeeded" then do
    let d ← jsProp ev "data"
    let _pi ← jsProp d "object"
    pure .succeeded
  else if strictEqStr t "payment_intent.payment_failed" then do
    let d ← jsProp ev "data"
    let pi ← jsProp d "object"
    let _lpe ← jsProp pi "last_payment_error"
    pure .failed
  else
    pure .other

/-- Truthiness of `process.env.STRIPE_WEBHOOK_SECRET` in
`endpointSecret ? ... : ...`: an unset variable (`none`) and the empty
string are falsy. -/
def secretConfigured : Option String → Bool
  | none => false
  | some s => !(s == "")

/-- The `try` block's event acquisition (src/server.js lines 64-67): with a
truthy signing secret, `stripe.webhooks.constructEvent(req.body, sig,
endpointSecret)` (the parameter `constructEvent`; `Except.error msg` models
a throw with message `msg`); otherwise the unverified `JSON.parse(req.body)`
(the parameter `jsonParse`). -/
def obtainEvent (endpointSecret : Option String)
    (constructEvent : String → Option String → String → Except String JValue)
    (jsonParse : String → Except String JValue)
    (rawBody : String) (sig : Option String) : Except String JValue :=
  match endpointSecret with
  | some sec => if sec == "" then jsonParse rawBody else constructEvent rawBody sig sec
  | none => jsonParse rawBody

/-- One run of the webhook handler: either a response was sent (with the
dispatch branch taken, `none` when the `catch` fired before dispatch), or
the handler threw out of the dispatch (no response of its own; Express's
default error handling takes over). -/
inductive WebhookOutcome where
  | resp (r : Resp) (dispatched : Option WDispatch)
  | thrown (e : String)

/-- The `POST /webhook` handler (src/server.js lines 59-89): obtain the
event (verified or fallback-parsed); a throw there is caught and answered
with `400 "Webhook Error: <message>"` and no dispatch; otherwise dispatch
on the event type — which is outside the `try`, so a `TypeError` there
escapes the handler — and acknowledge with `200 { received: true }`. -/
def webhookHandler (endpointSecret : Option String)
    (constructEvent : String → Option String → String → Except String JValue)
    (jsonParse : String → Except String JValue)
    (rawBody : String) (sig : Option String) : WebhookOutcome :=
  match obtainEvent endpointSecret constructEvent jsonParse rawBody sig with
  | .error msg => .resp ⟨400, .text ("Webhook Error: " ++ msg)⟩ none
  | .ok ev =>
    match webhookDispatch ev with
    | .error e => .thrown e
    | .ok d => .resp ⟨200, .receivedJson⟩ (some d)

/-- True exactly when the outcome is the `200 { received: true }`
acknowledgement. -/
def acknowledged : WebhookOutcome → Bool
  | .resp ⟨200, .receivedJson⟩ _ => true
  | _ => false

/-! The CORS origin gate (src/server.js lines 12-18). -/

/-- Splitting a character list at commas, accumulating the current piece in
reverse: the model of JavaScript `s.split(',')`, which on the empty string
yields `[""]` and keeps empty pieces between adjacent commas. -/
def splitCommaAux : List Char → List Char → List String
  | [], acc => [String.mk acc.reverse]
  | c :: rest, acc =>
    if c = ',' then String.mk acc.reverse :: splitCommaAux rest []
    else splitCommaAux rest (c :: acc)

/-- `(process.env.ALLOWED_ORIGINS || '').split(',').filter(Boolean)`
(src/server.js line 12): split the configured variable on commas and drop
empty pieces. -/
def parseAllowedOrigins (env : Option String) : List String :=
  (splitCommaAux (env.getD "").data []).filter fun s => !(s == "")

example : parseAllowedOrigins none = [] := by decide
example : parseAllowedOrigins (some "a.com,b.org") = ["a.com", "b.org"] := by decide
example : parseAllowedOrigins (some "a.com,,") = ["a.com"] := by decide

/-- The `origin` callback's test (src/server.js line 15):
`!origin || allowed.length === 0 || allowed.includes(origin)`. The request's
`Origin` header is `none` when absent; an empty header value is falsy in
JavaScript, so `!origin` also accepts it. -/
def corsOriginAllowed (allowed : List String) (origin : Option String) : Bool :=
  (match origin with | none => true | some o => o == "") ||
    allowed.isEmpty || (match origin with | none => false | some o => allowed.contains o)

/-- The full callback: permit (`cb(null, true)`) or reject with the
authorization error `cb(new Error('Not allowed by CORS'))`, which the cors
middleware turns into a rejection before any route handler runs. -/
def corsOriginDecision (allowed : List String) (origin : Option String) :
    Except String Unit :=
  if corsOriginAllowed allowed origin then .ok () else .error "Not allowed by CORS"

/-! Claims. -/

/-- C1, counterexample: the claim puts the ceiling at 500,000,000, but the
literal `5_000_00_00` in `isValidAmount` is fifty million. The value
500,000,000 is an integer, strictly positive, and at most 500,000,000, so
the claim says `isValidAmount` accepts it — the code rejects it. -/
theorem isValidAmount_claimed_ceiling_counterexample :
    isValidAmount (.num 500000000) = false ∧
    (500000000 : ℚ).den = 1 ∧ (0 : ℚ) < 500000000 ∧
    (500000000 : ℚ) ≤ 500000000 := by decide

/-- C1, amended: `isValidAmount v` is true iff `v` is an integral number
that is strictly positive and at most 50,000,000 (the digits of the
source's `5_000_00_00`, i.e. $500,000 in cents — matching the comment
`// up to $500k`). -/
theorem isValidAmount_iff (v : JValue) :
    isValidAmount v = true ↔
      ∃ a : ℤ, v = .num (a : ℚ) ∧ 0 < a ∧ a ≤ 50000000 := by
  cases v with
  | num q =>
    simp only [isValidAmount, Bool.and_eq_true, beq_iff_eq, decide_eq_true_eq,
      JValue.num.injEq]
    constructor
    · rintro ⟨⟨hden, hpos⟩, hle⟩
      refine ⟨q.num, ((Rat.den_eq_one_iff q).mp hden).symm, ?_, ?_⟩
      · have : (0 : ℚ) < (q.num : ℚ) := by
          rw [(Rat.den_eq_one_iff q).mp hden]; exact hpos
        exact_mod_cast this
      · have : (q.num : ℚ) ≤ 50000000 := by
          rw [(Rat.den_eq_one_iff q).mp hden]; exact hle
        exact_mod_cast this
    · rintro ⟨a, rfl, hpos, hle⟩
      refine ⟨⟨rfl, ?_⟩, ?_⟩
      · exact_mod_cast hpos
      · exact_mod_cast hle
  | nan => simp [isValidAmount]
  | inf => simp [isValidAmount]
  | ninf => simp [isValidAmount]
  | str s => simp [isValidAmount]
  | bool b => simp [isValidAmount]
  | nullV => simp [isValidAmount]
  | undefV => simp [isValidAmount]
  | obj fields => simp [isValidAmount]
  | arr elems => simp [isValidAmount]

/-- C2: the currency check the payment-intent handler applies to a string
`c` accepts it iff the lower-cased form of `c` is in the allow-set
`{usd, cad, eur, gbp, aud}`. -/
theorem isValidCurrency_iff (c : String) :
    isValidCurrencyCheck (.str c) = true ↔
      jsToLowerCase c ∈ allowedCurrencies := by
  simp [isValidCurrencyCheck, jsToString, allowedCurrencies]

/-- C3: a request failing amount validation is answered
`400 { error: "Invalid amount" }`, and a request passing amount validation
but failing currency validation is answered
`400 { error: "Unsupported currency" }`; in both cases the processor is
never invoked (no call is recorded) and the handler returns at once — there
is no retry path. -/
theorem create_intent_validation_errors (create : PIParams → Except String Intent)
    (req : CreateReq) :
    (isValidAmount req.amountInCents = false →
      createPaymentIntentHandler create req =
        ⟨⟨400, .errJson "Invalid amount"⟩, [], none⟩) ∧
    (isValidAmount req.amountInCents = true →
      isValidCurrencyCheck (req.currency.getD (.str "usd")) = false →
      createPaymentIntentHandler create req =
        ⟨⟨400, .errJson "Unsupported currency"⟩, [], none⟩) := by
  constructor
  · intro h
    simp [createPaymentIntentHandler, h]
  · intro hA hC
    simp [createPaymentIntentHandler, hA, hC]

/-- C3, witness: `amountInCents = -5` is rejected as an invalid amount with
no processor call; `amountInCents = 1000` with currency `"jpy"` is rejected
as an unsupported currency with no processor call. -/
theorem create_intent_validation_errors_witness :
    (isValidAmount (.num (-5)) = false ∧
      createPaymentIntentHandler (fun _ => .error "unreached")
          ⟨.num (-5), none, none⟩ =
        ⟨⟨400, .errJson "Invalid amount"⟩, [], none⟩) ∧
    (isValidAmount (.num 1000) = true ∧
      isValidCurrencyCheck (.str "jpy") = false ∧
      createPaymentIntentHandler (fun _ => .error "unreached")
          ⟨.num 1000, some (.str "jpy"), none⟩ =
        ⟨⟨400, .errJson "Unsupported currency"⟩, [], none⟩) := by
  refine ⟨⟨by decide, (create_intent_validation_errors _ _).1 (by decide)⟩,
    ⟨by decide, ?_, ?_⟩⟩
  · simp [isValidCurrencyCheck, jsToString]
    decide
  · exact (create_intent_validation_errors _ _).2 (by decide)
      (by simp [isValidCurrencyCheck, jsToString]; decide)

/-- C4: when amount and (defaulted) currency validation both pass, the
handler invokes the processor exactly once, with the given amount, the
lower-cased currency, every metadata value coerced to a string, and
automatic payment methods enabled; and if that call returns an intent, the
response is `200 { clientSecret: <the intent's client secret> }`. -/
theorem create_intent_success (create : PIParams → Except String Intent)
    (req : CreateReq)
    (hA : isValidAmount req.amountInCents = true)
    (hC : isValidCurrencyCheck (req.currency.getD (.str "usd")) = true) :
    (createPaymentIntentHandler create req).calls =
      [⟨req.amountInCents,
        jsToLowerCase (jsToString (req.currency.getD (.str "usd"))), true,
        stringCoerceEntries (req.metadata.getD [])⟩] ∧
    ∀ intent,
      create ⟨req.amountInCents,
          jsToLowerCase (jsToString (req.currency.getD (.str "usd"))), true,
          stringCoerceEntries (req.metadata.getD [])⟩ = .ok intent →
      (createPaymentIntentHandler create req).resp =
        ⟨200, .clientSecretJson intent.client_secret⟩ := by
  constructor
  · cases h : create ⟨req.amountInCents,
        jsToLowerCase (jsToString (req.currency.getD (.str "usd"))), true,
        stringCoerceEntries (req.metadata.getD [])⟩ with
    | ok intent => simp [createPaymentIntentHandler, hA, hC, h]
    | error e => simp [createPaymentIntentHandler, hA, hC, h]
  · intro intent h
    simp [createPaymentIntentHandler, hA, hC, h]

/-- C4, witness: amount 2500 with currency `"USD"` and metadata
`{ orderId: 7 }` is accepted; the processor is called exactly once with
amount 2500, currency `"usd"`, automatic payment methods enabled, and
metadata value `"7"`; its intent's client secret is echoed back with
status 200. -/
theorem create_intent_success_witness :
    isValidAmount (.num 2500) = true ∧
    isValidCurrencyCheck (.str "USD") = true ∧
    (createPaymentIntentHandler (fun _ => .ok ⟨"pi_secret_42"⟩)
        ⟨.num 2500, some (.str "USD"), some [("orderId", .num 7)]⟩).calls =
      [⟨.num 2500, "usd", true, [("orderId", "7")]⟩] ∧
    (createPaymentIntentHandler (fun _ => .ok ⟨"pi_secret_42"⟩)
        ⟨.num 2500, some (.str "USD"), some [("orderId", .num 7)]⟩).resp =
      ⟨200, .clientSecretJson "pi_secret_42"⟩ := by
  have hC : isValidCurrencyCheck (.str "USD") = true := by
    simp [isValidCurrencyCheck, jsToString]; decide
  have h := create_intent_success (fun _ => .ok ⟨"pi_secret_42"⟩)
    ⟨.num 2500, some (.str "USD"), some [("orderId", .num 7)]⟩ (by decide) hC
  refine ⟨by decide, hC, ?_, h.2 ⟨"pi_secret_42"⟩ rfl⟩
  rw [h.1]
  simp [stringCoerceEntries, jsToString, jsToLowerCase]
  decide

/-- C5: when both validations pass and the processor call fails with any
error `e`, the handler catches it, logs it with its detail, and answers
`500 { error: "Server error" }` — a body that does not depend on `e`, so
the processor's message never reaches the caller. -/
theorem create_intent_processor_failure (create : PIParams → Except String Intent)
    (req : CreateReq) (e : String)
    (hA : isValidAmount req.amountInCents = true)
    (hC : isValidCurrencyCheck (req.currency.getD (.str "usd")) = true)
    (hE : create ⟨req.amountInCents,
        jsToLowerCase (jsToString (req.currency.getD (.str "usd"))), true,
        stringCoerceEntries (req.metadata.getD [])⟩ = .error e) :
    (createPaymentIntentHandler create req).resp =
      ⟨500, .errJson "Server error"⟩ ∧
    (createPaymentIntentHandler create req).errorLog =
      some ("create-payment-intent error: " ++ e) := by
  constructor
  · simp [createPaymentIntentHandler, hA, hC, hE]
  · simp [createPaymentIntentHandler, hA, hC, hE]

/-- C5, witness: a processor that rejects with an authentication error
yields `500 { error: "Server error" }` (the processor's message appearing
only in the log). -/
theorem create_intent_processor_failure_witness :
    isValidAmount (.num 1000) = true ∧
    isValidCurrencyCheck (.str "usd") = true ∧
    (createPaymentIntentHandler
        (fun _ => .error "StripeAuthenticationError: Invalid API Key provided")
        ⟨.num 1000, none, none⟩).resp = ⟨500, .errJson "Server error"⟩ ∧
    (createPaymentIntentHandler
        (fun _ => .error "StripeAuthenticationError: Invalid API Key provided")
        ⟨.num 1000, none, none⟩).errorLog =
      some "create-payment-intent error: StripeAuthenticationError: Invalid API Key provided" := by
  have hC : isValidCurrencyCheck (.str "usd") = true := by
    simp [isValidCurrencyCheck, jsToString]; decide
  have h := create_intent_processor_failure
    (fun _ => .error "StripeAuthenticationError: Invalid API Key provided")
    ⟨.num 1000, none, none⟩ "StripeAuthenticationError: Invalid API Key provided"
    (by decide) hC rfl
  exact ⟨by decide, hC, h.1, h.2⟩

/-- C9: the amount check runs first, so a request whose amount and currency
are both invalid is answered `400 { error: "Invalid amount" }`, never the
currency error. -/
theorem invalid_amount_takes_precedence (create : PIParams → Except String Intent)
    (req : CreateReq)
    (hA : isValidAmount req.amountInCents = false)
    (_hC : isValidCurrencyCheck (req.currency.getD (.str "usd")) = false) :
    (createPaymentIntentHandler create req).resp =
      ⟨400, .errJson "Invalid amount"⟩ ∧
    (createPaymentIntentHandler create req).resp ≠
      ⟨400, .errJson "Unsupported currency"⟩ := by
  constructor
  · simp [createPaymentIntentHandler, hA]
  · simp [createPaymentIntentHandler, hA]

/-- C9, witness: amount 0 with currency `"jpy"` — both invalid — is
answered with the amount error. -/
theorem invalid_amount_takes_precedence_witness :
    isValidAmount (.num 0) = false ∧
    isValidCurrencyCheck (.str "jpy") = false ∧
    (createPaymentIntentHandler (fun _ => .error "unreached")
        ⟨.num 0, some (.str "jpy"), none⟩).resp =
      ⟨400, .errJson "Invalid amount"⟩ ∧
    (createPaymentIntentHandler (fun _ => .error "unreached")
        ⟨.num 0, some (.str "jpy"), none⟩).resp ≠
      ⟨400, .errJson "Unsupported currency"⟩ := by
  have hC : isValidCurrencyCheck (.str "jpy") = false := by
    simp [isValidCurrencyCheck, jsToString]; decide
  have h := invalid_amount_takes_precedence (fun _ => .error "unreached")
    ⟨.num 0, some (.str "jpy"), none⟩ (by decide) hC
  exact ⟨by decide, hC, h.1, h.2⟩

/-- C6: with a configured (truthy) signing secret, the event comes from the
verification routine, and whenever that routine throws with message `msg`
the handler answers `400` with body `"Webhook Error: " ++ msg` and performs
no event-type dispatch. -/
theorem webhook_verification_failure (sec : String)
    (constructEvent : String → Option String → String → Except String JValue)
    (jsonParse : String → Except String JValue)
    (rawBody : String) (sig : Option String) (msg : String)
    (hs : secretConfigured (some sec) = true)
    (hv : constructEvent rawBody sig sec = .error msg) :
    webhookHandler (some sec) constructEvent jsonParse rawBody sig =
      .resp ⟨400, .text ("Webhook Error: " ++ msg)⟩ none := by
  have hne : (sec == "") = false := by
    simp only [secretConfigured, Bool.not_eq_eq_eq_not, Bool.not_true] at hs
    exact hs
  simp [webhookHandler, obtainEvent, hne, hv]

/-- C6, witness: with secret `"whsec_test"` and a verifier rejecting the
signature, the response is a 400 whose body starts with `"Webhook Error:"`
and carries the failure reason, and nothing is dispatched. -/
theorem webhook_verification_failure_witness :
    secretConfigured (some "whsec_test") = true ∧
    webhookHandler (some "whsec_test")
        (fun _ _ _ => .error "No signatures found matching the expected signature for payload")
        (fun _ => .ok (.obj [])) "payload" (some "t=1,v1=bad") =
      .resp ⟨400, .text ("Webhook Error: " ++
        "No signatures found matching the expected signature for payload")⟩ none := by
  exact ⟨by decide,
    webhook_verification_failure "whsec_test" _ _ "payload" (some "t=1,v1=bad")
      "No signatures found matching the expected signature for payload"
      (by decide) rfl⟩

/-- C7, counterexample: with no signing secret, the raw body `"null"` is
valid JSON, so the fallback parse succeeds (yielding JSON `null` — an event
successfully obtained by the unverified fallback parse in the claim's
terms), yet the handler does not respond `200 { received: true }`: reading
`event.type` on `null` throws a `TypeError` out of the handler. -/
theorem webhook_ack_counterexample :
    (fun s => if s == "null" then Except.ok JValue.nullV
      else Except.error "Unexpected token") "null" = Except.ok JValue.nullV ∧
    webhookHandler none (fun _ _ _ => .error "unreached")
        (fun s => if s == "null" then Except.ok JValue.nullV
          else Except.error "Unexpected token") "null" none =
      .thrown "TypeError: Cannot read properties of null (reading type)" ∧
    acknowledged (webhookHandler none (fun _ _ _ => .error "unreached")
        (fun s => if s == "null" then Except.ok JValue.nullV
          else Except.error "Unexpected token") "null" none) = false := by
  exact ⟨rfl, rfl, rfl⟩

/-- C7, amended: for every webhook request from which an event is obtained
(verified or fallback-parsed), if the event-type dispatch completes without
throwing then the handler answers `200 { received: true }` whatever branch
was taken; and for an object event whose `type` is neither
`payment_intent.succeeded` nor `payment_intent.payment_failed`, dispatch
always completes (taking the no-op default branch), so such events are
acknowledged and ignored. Dispatch throws — and no `200` is sent — exactly
when a property read on `null`/`undefined` occurs, e.g. an obtained event
that is JSON `null`. -/
theorem webhook_ack_on_dispatch (endpointSecret : Option String)
    (constructEvent : String → Option String → String → Except String JValue)
    (jsonParse : String → Except String JValue)
    (rawBody : String) (sig : Option String) (ev : JValue)
    (hob : obtainEvent endpointSecret constructEvent jsonParse rawBody sig = .ok ev) :
    (∀ d, webhookDispatch ev = .ok d →
      webhookHandler endpointSecret constructEvent jsonParse rawBody sig =
        .resp ⟨200, .receivedJson⟩ (some d)) ∧
    (∀ fields t, ev = .obj fields → (fields.lookup "type").getD .undefV = t →
      strictEqStr t "payment_intent.succeeded" = false →
      strictEqStr t "payment_intent.payment_failed" = false →
      webhookHandler endpointSecret constructEvent jsonParse rawBody sig =
        .resp ⟨200, .receivedJson⟩ (some .other)) := by
  constructor
  · intro d hd
    simp [webhookHandler, hob, hd]
  · rintro fields t rfl rfl h1 h2
    have hd : webhookDispatch (.obj fields) = .ok .other := by
      simp [webhookDispatch, jsProp, Bind.bind, Except.bind, h1, h2, Pure.pure,
        Except.pure]
    simp [webhookHandler, hob, hd]

/-- C7, witness: with no signing secret, a fallback-parsed event of the
unhandled type `charge.refunded` is acknowledged with
`200 { received: true }` via the default branch. -/
theorem webhook_ack_on_dispatch_witness :
    obtainEvent none (fun _ _ _ => .error "unreached")
        (fun _ => .ok (.obj [("type", .str "charge.refunded")])) "body" none =
      .ok (.obj [("type", .str "charge.refunded")]) ∧
    strictEqStr (.str "charge.refunded") "payment_intent.succeeded" = false ∧
    strictEqStr (.str "charge.refunded") "payment_intent.payment_failed" = false ∧
    webhookHandler none (fun _ _ _ => .error "unreached")
        (fun _ => .ok (.obj [("type", .str "charge.refunded")])) "body" none =
      .resp ⟨200, .receivedJson⟩ (some .other) := by
  refine ⟨rfl, by decide, by decide, ?_⟩
  exact (webhook_ack_on_dispatch none (fun _ _ _ => .error "unreached")
      (fun _ => .ok (.obj [("type", .str "charge.refunded")])) "body" none
      (.obj [("type", .str "charge.refunded")]) rfl).2
    [("type", .str "charge.refunded")] (.str "charge.refunded") rfl rfl
    (by decide) (by decide)

/-- C10: with no configured signing secret, a raw body the fallback
`JSON.parse` rejects is caught by the same `catch` as a verification
failure: the handler answers `400` with `"Webhook Error: " ++ msg`, never
dispatches, and does not throw. -/
theorem webhook_fallback_parse_failure (endpointSecret : Option String)
    (constructEvent : String → Option String → String → Except String JValue)
    (jsonParse : String → Except String JValue)
    (rawBody : String) (sig : Option String) (msg : String)
    (hs : secretConfigured endpointSecret = false)
    (hp : jsonParse rawBody = .error msg) :
    webhookHandler endpointSecret constructEvent jsonParse rawBody sig =
      .resp ⟨400, .text ("Webhook Error: " ++ msg)⟩ none := by
  cases endpointSecret with
  | none => simp [webhookHandler, obtainEvent, hp]
  | some sec =>
    have he : (sec == "") = true := by
      simp only [secretConfigured, Bool.not_eq_eq_eq_not, Bool.not_false] at hs
      exact hs
    simp [webhookHandler, obtainEvent, he, hp]

/-- C10, witness: with no secret and the non-JSON body `"not json"`, the
fallback parse's failure message is surfaced in a 400 `"Webhook Error:"`
response with no dispatch. -/
theorem webhook_fallback_parse_failure_witness :
    secretConfigured none = false ∧
    (fun s => if s == "not json"
        then Except.error "Unexpected token o in JSON at position 1"
        else Except.ok (JValue.obj [])) "not json" =
      Except.error "Unexpected token o in JSON at position 1" ∧
    webhookHandler none (fun _ _ _ => .error "unreached")
        (fun s => if s == "not json"
          then Except.error "Unexpected token o in JSON at position 1"
          else Except.ok (JValue.obj [])) "not json" none =
      .resp ⟨400, .text ("Webhook Error: " ++
        "Unexpected token o in JSON at position 1")⟩ none := by
  exact ⟨rfl, rfl,
    webhook_fallback_parse_failure none _ _ "not json" none
      "Unexpected token o in JSON at position 1" rfl rfl⟩

/-- C8, counterexample: the claim's permit condition is an iff over three
disjuncts, but the gate's `!origin` test is JavaScript falsiness, which
also accepts a present-but-empty `Origin` header: with the non-empty
allow-list `["https://app.example.com"]` (as parsed from
`ALLOWED_ORIGINS=https://app.example.com`) and an empty-valued `Origin`
header, the request has an `Origin` header, the list is non-empty, and the
empty origin is not a member — the claim says reject — yet the gate
permits it. -/
theorem cors_gate_counterexample :
    parseAllowedOrigins (some "https://app.example.com") =
      ["https://app.example.com"] ∧
    corsOriginDecision ["https://app.example.com"] (some "") = .ok () ∧
    (some "" : Option String) ≠ none ∧
    ["https://app.example.com"] ≠ ([] : List String) ∧
    ¬ ("" ∈ ["https://app.example.com"]) := by
  exact ⟨by decide, rfl, by decide, by decide, by decide⟩

/-- C8, amended: the gate permits a request iff it has no `Origin` header,
or its `Origin` header is the empty string (falsy, hence treated like an
absent header), or the allow-list is empty, or the origin is a member of
the allow-list; every other request is rejected with the authorization
error `Not allowed by CORS` before any route handler runs. -/
theorem cors_gate_iff (allowed : List String) (origin : Option String) :
    (corsOriginAllowed allowed origin = true ↔
      (origin = none ∨ origin = some "" ∨ allowed = [] ∨
        ∃ o, origin = some o ∧ o ∈ allowed)) ∧
    (corsOriginAllowed allowed origin = false →
      corsOriginDecision allowed origin = .error "Not allowed by CORS") := by
  constructor
  · cases origin with
    | none => simp [corsOriginAllowed]
    | some o =>
      simp [corsOriginAllowed, List.isEmpty_iff, or_assoc]
  · intro h
    simp [corsOriginDecision, h]

/-- C8, witness: with allow-list `["https://app.example.com"]`, a request
from `https://evil.example.net` fails the permit test and is rejected with
the authorization error. -/
theorem cors_gate_iff_witness :
    corsOriginAllowed ["https://app.example.com"] (some "https://evil.example.net") =
      false ∧
    corsOriginDecision ["https://app.example.com"] (some "https://evil.example.net") =
      .error "Not allowed by CORS" := by
  exact ⟨by decide,
    (cors_gate_iff ["https://app.example.com"] (some "https://evil.example.net")).2
      (by decide)⟩
